import Mathlib

/-!
Verification of the CarbonStream capacity-and-carbon model.

The repository contains two near-duplicate script variants of the same
analytical model:
  - the legacy variant (`src/carbon_stream.py`), which uses built-in constant
    tables and process-wide constants (network latency, processing latency,
    read/write split, load capacity, number of videos);
  - the current, config-file variant (`src/src/carbon_stream.py`), which
    threads the same cross-cutting parameters through a `SystemConfig` record.

Both are shallowly embedded below over exact rational arithmetic (`ℚ`).
Python's `//` floor division is modelled by `Int.floor` of the rational
quotient, `np.ceil` by `Int.ceil`, and `min` by `min`.  Python dictionaries
holding per-operation values (read/write, network/processing) become pairs of
named fields.  Identifier names follow the source; two process-wide constants
are renamed (`READ_RATIO` → `READ_FRACTION`, and the config fields
`active_idle_ratio` / `read_write_ratio` → `active_idle_fraction` /
`read_write_fraction`) purely for lexical reasons, with their meaning
unchanged.
-/

namespace CarbonStream

/-- Network latency constant of the legacy variant (`NETWORK_LATENCY = 1`, ms). -/
def NETWORK_LATENCY : ℚ := 1

/-- Processing latency constant of the legacy variant (`PROCESSING_LATENCY = 0.5`, ms). -/
def PROCESSING_LATENCY : ℚ := 1/2

/-- Read share of operations in the legacy variant (`READ_RATIO = 0.7`). -/
def READ_FRACTION : ℚ := 7/10

/-- Write share of operations in the legacy variant (`WRITE_RATIO = 1 - READ_RATIO`). -/
def WRITE_FRACTION : ℚ := 1 - READ_FRACTION

/-- Number of videos stored in the system, legacy variant (`NUM_VIDEOS = 10000000000`). -/
def NUM_VIDEOS : ℚ := 10000000000

/-- Fraction of time servers are active, legacy variant (`LOAD_CAPACITY = 0.7`). -/
def LOAD_CAPACITY : ℚ := 7/10

/-- Number of seconds in a simulated year (`365 * 24 * 60 * 60`), common to both variants. -/
def seconds_in_a_year : ℚ := 365 * 24 * 60 * 60

/-- Per-tier carbon cost breakdown.  The Python functions return four
three-element lists (embodied, active, idle, replacement), each indexed
`[frontend, cache, backend]`; here each list entry is a named field. -/
structure CarbonCosts where
  frontend_embodied : ℚ
  cache_embodied : ℚ
  backend_embodied : ℚ
  frontend_active : ℚ
  cache_active : ℚ
  backend_active : ℚ
  frontend_idle : ℚ
  cache_idle : ℚ
  backend_idle : ℚ
  frontend_replacement : ℚ
  cache_replacement : ℚ
  backend_replacement : ℚ

/-- One emitted results row, shared by both variants.  The hardware-identifier
string columns of the CSV (pure copies of the selector inputs) are omitted;
all numeric columns are present. -/
structure Row where
  slo_latency : ℚ
  slo_throughput : ℚ
  avg_latency : ℚ
  peak_throughput : ℚ
  cumulative_carbon_cost : ℚ
  num_frontend_servers : ℚ
  num_cache_servers : ℚ
  num_backend_servers : ℚ
  cache_hit_rate : ℚ
  embodied_cost : ℚ
  active_cost : ℚ
  idle_cost : ℚ
  replacement_cost : ℚ
  frontend_capacity : ℚ
  cache_capacity : ℚ
  backend_capacity : ℚ
  total_capacity : ℚ
  simulation_years : ℚ

namespace Legacy

/-- Legacy `ServerConfig`: one row of the constant tables
(`FrontendParams`/`CacheParams`/`BackendParams`), with the read/write
access-cost dictionary split into two fields. -/
structure ServerConfig where
  latency : ℚ
  throughput : ℚ
  carbon_cost : ℚ
  active_cost_read : ℚ
  active_cost_write : ℚ
  idle_cost : ℚ
  lifespan_years : ℚ
  size : ℚ

/-- Legacy `calculate_average_latency`: per-tier effective latency plus the
AMAT grouping `hit * cache + (1 - hit) * (cache + backend)`. -/
def calculate_average_latency (frontend_config cache_config backend_config : ServerConfig)
    (cache_hit_rate : ℚ) : ℚ :=
  let frontend_latency := frontend_config.latency + NETWORK_LATENCY + PROCESSING_LATENCY
  let cache_latency := cache_config.latency + NETWORK_LATENCY + PROCESSING_LATENCY
  let backend_latency := backend_config.latency + NETWORK_LATENCY + PROCESSING_LATENCY
  let amat := cache_hit_rate * cache_latency +
    (1 - cache_hit_rate) * (cache_latency + backend_latency)
  frontend_latency + amat

/-- Legacy `calculate_total_throughput`. -/
def calculate_total_throughput (config : ServerConfig) (num_servers : ℚ) : ℚ :=
  config.throughput * num_servers

/-- Legacy `calculate_peak_throughput`: Python `min` of the three aggregates. -/
def calculate_peak_throughput (frontend_total_throughput cache_total_throughput
    backend_total_throughput : ℚ) : ℚ :=
  min frontend_total_throughput (min cache_total_throughput backend_total_throughput)

/-- Legacy `calculate_servers_needed`: `np.ceil(throughput / config_throughput)`. -/
def calculate_servers_needed (throughput config_throughput : ℚ) : ℚ :=
  (⌈throughput / config_throughput⌉ : ℤ)

/-- Legacy `calculate_cache_hit_rate`: total cache size over `NUM_VIDEOS`,
capped at 1 (`min(1, hit_rate)`). -/
def calculate_cache_hit_rate (cache_config : ServerConfig) (num_cache_servers : ℚ) : ℚ :=
  let total_cache_size := cache_config.size * num_cache_servers
  let hit_rate := total_cache_size / NUM_VIDEOS
  min 1 hit_rate

/-- Legacy `calculate_individual_carbon_costs`.  Python's `simulation_years //
lifespan_years` (floor division of ints) is `⌊years / lifespan⌋`; the guard
`simulation_years > lifespan_years` is kept as in the source. -/
def calculate_individual_carbon_costs (frontend_config cache_config backend_config : ServerConfig)
    (num_frontend_servers num_cache_servers num_backend_servers cache_hit_rate
    simulation_years : ℚ) : CarbonCosts :=
  let total_seconds := simulation_years * seconds_in_a_year
  { frontend_embodied := num_frontend_servers * frontend_config.carbon_cost * frontend_config.size
    cache_embodied := num_cache_servers * cache_config.carbon_cost * cache_config.size
    backend_embodied := num_backend_servers * backend_config.carbon_cost * backend_config.size
    frontend_active :=
      (num_frontend_servers * frontend_config.active_cost_read * READ_FRACTION +
        num_frontend_servers * frontend_config.active_cost_write * WRITE_FRACTION) *
        frontend_config.size * total_seconds * LOAD_CAPACITY
    cache_active :=
      (num_cache_servers * cache_config.active_cost_read * READ_FRACTION +
        num_cache_servers * cache_config.active_cost_write * WRITE_FRACTION) *
        cache_config.size * total_seconds * LOAD_CAPACITY
    backend_active :=
      (num_backend_servers * backend_config.active_cost_read * READ_FRACTION +
        num_backend_servers * backend_config.active_cost_write * WRITE_FRACTION) *
        backend_config.size * total_seconds * LOAD_CAPACITY * (1 - cache_hit_rate)
    frontend_idle := num_frontend_servers * frontend_config.idle_cost * frontend_config.size *
      (1 - LOAD_CAPACITY) * total_seconds
    cache_idle := num_cache_servers * cache_config.idle_cost * cache_config.size *
      (1 - LOAD_CAPACITY) * total_seconds
    backend_idle := num_backend_servers * backend_config.idle_cost * backend_config.size *
      (1 - LOAD_CAPACITY) * total_seconds * (1 - cache_hit_rate)
    frontend_replacement :=
      if frontend_config.lifespan_years < simulation_years then
        (⌊simulation_years / frontend_config.lifespan_years⌋ : ℤ) *
          num_frontend_servers * frontend_config.carbon_cost * frontend_config.size
      else 0
    cache_replacement :=
      if cache_config.lifespan_years < simulation_years then
        (⌊simulation_years / cache_config.lifespan_years⌋ : ℤ) *
          num_cache_servers * cache_config.carbon_cost * cache_config.size
      else 0
    backend_replacement :=
      if backend_config.lifespan_years < simulation_years then
        (⌊simulation_years / backend_config.lifespan_years⌋ : ℤ) *
          num_backend_servers * backend_config.carbon_cost * backend_config.size
      else 0 }

/-- Legacy `main`, from server-config construction to the emitted CSV row
(console printing and file handling are I/O, outside the model). -/
def main_row (slo_latency slo_throughput : ℚ) (frontend_config cache_config
    backend_config : ServerConfig) (simulation_years : ℚ) : Row :=
  let num_frontend_servers := calculate_servers_needed slo_throughput frontend_config.throughput
  let num_cache_servers := calculate_servers_needed slo_throughput cache_config.throughput
  let num_backend_servers := calculate_servers_needed slo_throughput backend_config.throughput
  let cache_hit_rate := calculate_cache_hit_rate cache_config num_cache_servers
  let frontend_total_throughput := calculate_total_throughput frontend_config num_frontend_servers
  let cache_total_throughput := calculate_total_throughput cache_config num_cache_servers
  let backend_total_throughput := calculate_total_throughput backend_config num_backend_servers
  let peak_throughput := calculate_peak_throughput frontend_total_throughput
    cache_total_throughput backend_total_throughput
  let avg_latency := calculate_average_latency frontend_config cache_config backend_config
    cache_hit_rate
  let costs := calculate_individual_carbon_costs frontend_config cache_config backend_config
    num_frontend_servers num_cache_servers num_backend_servers cache_hit_rate simulation_years
  let embodied_carbon_cost := costs.frontend_embodied + costs.cache_embodied +
    costs.backend_embodied
  let active_cost := costs.frontend_active + costs.cache_active + costs.backend_active
  let idle_cost := costs.frontend_idle + costs.cache_idle + costs.backend_idle
  let replacement_cost := costs.frontend_replacement + costs.cache_replacement +
    costs.backend_replacement
  let frontend_cumulative := costs.frontend_embodied + costs.frontend_active +
    costs.frontend_idle + costs.frontend_replacement
  let cache_cumulative := costs.cache_embodied + costs.cache_active +
    costs.cache_idle + costs.cache_replacement
  let backend_cumulative := costs.backend_embodied + costs.backend_active +
    costs.backend_idle + costs.backend_replacement
  let cumulative_carbon_cost := frontend_cumulative + cache_cumulative + backend_cumulative
  let total_storage_capacity := num_frontend_servers * frontend_config.size +
    num_cache_servers * cache_config.size + num_backend_servers * backend_config.size
  { slo_latency := slo_latency
    slo_throughput := slo_throughput
    avg_latency := avg_latency
    peak_throughput := peak_throughput
    cumulative_carbon_cost := cumulative_carbon_cost
    num_frontend_servers := num_frontend_servers
    num_cache_servers := num_cache_servers
    num_backend_servers := num_backend_servers
    cache_hit_rate := cache_hit_rate
    embodied_cost := embodied_carbon_cost
    active_cost := active_cost
    idle_cost := idle_cost
    replacement_cost := replacement_cost
    frontend_capacity := num_frontend_servers * frontend_config.size
    cache_capacity := num_cache_servers * cache_config.size
    backend_capacity := num_backend_servers * backend_config.size
    total_capacity := total_storage_capacity
    simulation_years := simulation_years }

end Legacy

namespace Config

/-- Config-variant `SystemConfig`: the `latency` dictionary is split into its
`network` and `processing` entries; `active_idle_ratio` and `read_write_ratio`
become `active_idle_fraction` and `read_write_fraction`. -/
structure SystemConfig where
  latency_network : ℚ
  latency_processing : ℚ
  storage_capacity : ℚ
  active_idle_fraction : ℚ
  read_write_fraction : ℚ
  carbon_intensity : ℚ

/-- Config-variant `ServerConfig`: the `embodied_cost` and `power_consumption`
dictionaries are split into their entries. -/
structure ServerConfig where
  name : String
  latency : ℚ
  throughput : ℚ
  embodied_cost_initial : ℚ
  power_active_read : ℚ
  power_active_write : ℚ
  power_idle : ℚ
  lifespan : ℚ
  capacity : ℚ

/-- Config-variant `calculate_average_latency`: `frontend + cache +
miss_rate * backend` over per-tier effective latencies. -/
def calculate_average_latency (system_config : SystemConfig)
    (frontend_config cache_config backend_config : ServerConfig) (cache_hit_rate : ℚ) : ℚ :=
  let frontend_latency := frontend_config.latency + system_config.latency_network +
    system_config.latency_processing
  let cache_latency := cache_config.latency + system_config.latency_network +
    system_config.latency_processing
  let backend_latency := backend_config.latency + system_config.latency_network +
    system_config.latency_processing
  let cache_miss_rate := 1 - cache_hit_rate
  frontend_latency + cache_latency + cache_miss_rate * backend_latency

/-- Config-variant `calculate_total_throughput`. -/
def calculate_total_throughput (config : ServerConfig) (num_servers : ℚ) : ℚ :=
  config.throughput * num_servers

/-- Config-variant `calculate_peak_throughput`. -/
def calculate_peak_throughput (frontend_total_throughput cache_total_throughput
    backend_total_throughput : ℚ) : ℚ :=
  min frontend_total_throughput (min cache_total_throughput backend_total_throughput)

/-- Config-variant `calculate_servers_needed`: `np.ceil(throughput / config_throughput)`. -/
def calculate_servers_needed (throughput config_throughput : ℚ) : ℚ :=
  (⌈throughput / config_throughput⌉ : ℤ)

/-- Config-variant `calculate_cache_hit_rate`: total cache capacity over the
system storage capacity, capped at 1. -/
def calculate_cache_hit_rate (system_config : SystemConfig) (cache_config : ServerConfig)
    (num_cache_servers : ℚ) : ℚ :=
  let total_cache_capacity := cache_config.capacity * num_cache_servers
  let hit_rate := total_cache_capacity / system_config.storage_capacity
  min 1 hit_rate

/-- Config-variant `calculate_individual_carbon_costs`. -/
def calculate_individual_carbon_costs (system_config : SystemConfig)
    (frontend_config cache_config backend_config : ServerConfig)
    (num_frontend_servers num_cache_servers num_backend_servers cache_hit_rate
    simulation_years : ℚ) : CarbonCosts :=
  let total_seconds := simulation_years * seconds_in_a_year
  { frontend_embodied := num_frontend_servers * frontend_config.embodied_cost_initial
    cache_embodied := num_cache_servers * cache_config.embodied_cost_initial
    backend_embodied := num_backend_servers * backend_config.embodied_cost_initial
    frontend_active :=
      (num_frontend_servers * frontend_config.power_active_read *
          system_config.carbon_intensity * system_config.read_write_fraction +
        num_frontend_servers * frontend_config.power_active_write *
          system_config.carbon_intensity * (1 - system_config.read_write_fraction)) *
        total_seconds * system_config.active_idle_fraction
    cache_active :=
      (num_cache_servers * cache_config.power_active_read *
          system_config.carbon_intensity * system_config.read_write_fraction +
        num_cache_servers * cache_config.power_active_write *
          system_config.carbon_intensity * (1 - system_config.read_write_fraction)) *
        total_seconds * system_config.active_idle_fraction
    backend_active :=
      (num_backend_servers * backend_config.power_active_read *
          system_config.carbon_intensity * system_config.read_write_fraction +
        num_backend_servers * backend_config.power_active_write *
          system_config.carbon_intensity * (1 - system_config.read_write_fraction)) *
        total_seconds * system_config.active_idle_fraction * (1 - cache_hit_rate)
    frontend_idle := num_frontend_servers * frontend_config.power_idle *
      system_config.carbon_intensity * (1 - system_config.active_idle_fraction) * total_seconds
    cache_idle := num_cache_servers * cache_config.power_idle *
      system_config.carbon_intensity * (1 - system_config.active_idle_fraction) * total_seconds
    backend_idle := num_backend_servers * backend_config.power_idle *
      system_config.carbon_intensity * (1 - system_config.active_idle_fraction) * total_seconds *
      (1 - cache_hit_rate)
    frontend_replacement :=
      if frontend_config.lifespan < simulation_years then
        (⌊simulation_years / frontend_config.lifespan⌋ : ℤ) *
          num_frontend_servers * frontend_config.embodied_cost_initial
      else 0
    cache_replacement :=
      if cache_config.lifespan < simulation_years then
        (⌊simulation_years / cache_config.lifespan⌋ : ℤ) *
          num_cache_servers * cache_config.embodied_cost_initial
      else 0
    backend_replacement :=
      if backend_config.lifespan < simulation_years then
        (⌊simulation_years / backend_config.lifespan⌋ : ℤ) *
          num_backend_servers * backend_config.embodied_cost_initial
      else 0 }

/-- Config-variant `main`, from configuration records to the emitted CSV row
(JSON loading, console printing and file handling are I/O, outside the model). -/
def main_row (slo_latency slo_throughput : ℚ) (system_config : SystemConfig)
    (frontend_config cache_config backend_config : ServerConfig)
    (simulation_years : ℚ) : Row :=
  let num_frontend_servers := calculate_servers_needed slo_throughput frontend_config.throughput
  let num_cache_servers := calculate_servers_needed slo_throughput cache_config.throughput
  let num_backend_servers := calculate_servers_needed slo_throughput backend_config.throughput
  let cache_hit_rate := calculate_cache_hit_rate system_config cache_config num_cache_servers
  let frontend_total_throughput := calculate_total_throughput frontend_config num_frontend_servers
  let cache_total_throughput := calculate_total_throughput cache_config num_cache_servers
  let backend_total_throughput := calculate_total_throughput backend_config num_backend_servers
  let peak_throughput := calculate_peak_throughput frontend_total_throughput
    cache_total_throughput backend_total_throughput
  let avg_latency := calculate_average_latency system_config frontend_config cache_config
    backend_config cache_hit_rate
  let costs := calculate_individual_carbon_costs system_config frontend_config cache_config
    backend_config num_frontend_servers num_cache_servers num_backend_servers cache_hit_rate
    simulation_years
  let embodied_carbon_cost := costs.frontend_embodied + costs.cache_embodied +
    costs.backend_embodied
  let active_cost := costs.frontend_active + costs.cache_active + costs.backend_active
  let idle_cost := costs.frontend_idle + costs.cache_idle + costs.backend_idle
  let replacement_cost := costs.frontend_replacement + costs.cache_replacement +
    costs.backend_replacement
  let frontend_cumulative := costs.frontend_embodied + costs.frontend_active +
    costs.frontend_idle + costs.frontend_replacement
  let cache_cumulative := costs.cache_embodied + costs.cache_active +
    costs.cache_idle + costs.cache_replacement
  let backend_cumulative := costs.backend_embodied + costs.backend_active +
    costs.backend_idle + costs.backend_replacement
  let cumulative_carbon_cost := frontend_cumulative + cache_cumulative + backend_cumulative
  let total_storage_capacity := num_frontend_servers * frontend_config.capacity +
    num_cache_servers * cache_config.capacity + num_backend_servers * backend_config.capacity
  { slo_latency := slo_latency
    slo_throughput := slo_throughput
    avg_latency := avg_latency
    peak_throughput := peak_throughput
    cumulative_carbon_cost := cumulative_carbon_cost
    num_frontend_servers := num_frontend_servers
    num_cache_servers := num_cache_servers
    num_backend_servers := num_backend_servers
    cache_hit_rate := cache_hit_rate
    embodied_cost := embodied_carbon_cost
    active_cost := active_cost
    idle_cost := idle_cost
    replacement_cost := replacement_cost
    frontend_capacity := num_frontend_servers * frontend_config.capacity
    cache_capacity := num_cache_servers * cache_config.capacity
    backend_capacity := num_backend_servers * backend_config.capacity
    total_capacity := total_storage_capacity
    simulation_years := simulation_years }

end Config

/-- Division-checked form of `calculate_servers_needed`, identical in both
variants.  In Python, `throughput / config_throughput` raises
`ZeroDivisionError` exactly when `config_throughput == 0` (the operands are
plain `int`/`float`, so NumPy's non-raising division is not involved); the
raising outcome is modelled as `none`. -/
def calculate_servers_needed_checked (throughput config_throughput : ℚ) : Option ℚ :=
  if config_throughput = 0 then none
  else some ((⌈throughput / config_throughput⌉ : ℤ) : ℚ)

end CarbonStream

namespace CarbonStream

/-- C1: for SLO throughput `t > 0` and per-server throughput `p > 0`,
`calculate_servers_needed t p` equals `⌈t / p⌉`, satisfies
`calculate_servers_needed t p * p ≥ t`, is an integer value `≥ 1`, and both
script variants agree. -/
theorem servers_needed_spec (t p : ℚ) (ht : 0 < t) (hp : 0 < p) :
    Legacy.calculate_servers_needed t p = ((⌈t / p⌉ : ℤ) : ℚ) ∧
    t ≤ Legacy.calculate_servers_needed t p * p ∧
    (∃ n : ℤ, Legacy.calculate_servers_needed t p = (n : ℚ) ∧ 1 ≤ n) ∧
    Legacy.calculate_servers_needed t p = Config.calculate_servers_needed t p := by
  have hceil : t / p ≤ ((⌈t / p⌉ : ℤ) : ℚ) := Int.le_ceil _
  have hpos : (0 : ℚ) < t / p := div_pos ht hp
  have hone : 0 < ⌈t / p⌉ := Int.ceil_pos.mpr hpos
  refine ⟨rfl, ?_, ⟨⌈t / p⌉, rfl, by omega⟩, rfl⟩
  show t ≤ ((⌈t / p⌉ : ℤ) : ℚ) * p
  calc t = t / p * p := (div_mul_cancel₀ t hp.ne').symm
    _ ≤ ((⌈t / p⌉ : ℤ) : ℚ) * p := mul_le_mul_of_nonneg_right hceil hp.le

/-- Witness for `servers_needed_spec` at `t = 1000`, `p = 20`. -/
theorem servers_needed_spec_witness :
    (0 : ℚ) < 1000 ∧ (0 : ℚ) < 20 ∧
    (Legacy.calculate_servers_needed 1000 20 = ((⌈(1000 : ℚ) / 20⌉ : ℤ) : ℚ) ∧
      (1000 : ℚ) ≤ Legacy.calculate_servers_needed 1000 20 * 20 ∧
      (∃ n : ℤ, Legacy.calculate_servers_needed 1000 20 = (n : ℚ) ∧ 1 ≤ n) ∧
      Legacy.calculate_servers_needed 1000 20 = Config.calculate_servers_needed 1000 20) :=
  ⟨by norm_num, by norm_num, servers_needed_spec 1000 20 (by norm_num) (by norm_num)⟩

/-- C2: the legacy AMAT grouping and the current grouping of the
average-latency formula agree.  The first conjunct is unconditional: the
legacy grouping `frontend + (hit * cache + (1 - hit) * (cache + backend))`,
written over the config variant's tier latencies and arbitrary network and
processing latencies, equals the current formula for every choice of tier
latencies, network latency, processing latency, and hit rate.  The second
conjunct compares the two source functions themselves: they agree whenever
the tier latencies match and the config variant's network/processing
latencies are the legacy variant's constants (the only values the legacy
source can take). -/
theorem latency_variants_equivalent (system_config : Config.SystemConfig)
    (F C B : Config.ServerConfig) (f c b : Legacy.ServerConfig) (hit : ℚ) :
    (F.latency + system_config.latency_network + system_config.latency_processing) +
      (hit * (C.latency + system_config.latency_network + system_config.latency_processing) +
        (1 - hit) *
          ((C.latency + system_config.latency_network + system_config.latency_processing) +
            (B.latency + system_config.latency_network + system_config.latency_processing))) =
      Config.calculate_average_latency system_config F C B hit ∧
    (system_config.latency_network = NETWORK_LATENCY →
      system_config.latency_processing = PROCESSING_LATENCY →
      F.latency = f.latency → C.latency = c.latency → B.latency = b.latency →
      Legacy.calculate_average_latency f c b hit =
        Config.calculate_average_latency system_config F C B hit) := by
  constructor
  · simp only [Config.calculate_average_latency]
    ring
  · intro hnet hproc hF hC hB
    simp only [Legacy.calculate_average_latency, Config.calculate_average_latency,
      hnet, hproc, hF, hC, hB]
    ring

/-- Witness for `latency_variants_equivalent` at concrete configurations. -/
theorem latency_variants_equivalent_witness :
    Legacy.calculate_average_latency ⟨2, 5, 0, 0, 0, 0, 5, 100⟩ ⟨3, 5, 0, 0, 0, 0, 5, 100⟩
        ⟨4, 5, 0, 0, 0, 0, 5, 100⟩ (1/4) =
      Config.calculate_average_latency ⟨1, 1/2, 10, 7/10, 7/10, 1⟩
        ⟨"front", 2, 5, 0, 0, 0, 0, 5, 100⟩ ⟨"cache", 3, 5, 0, 0, 0, 0, 5, 100⟩
        ⟨"back", 4, 5, 0, 0, 0, 0, 5, 100⟩ (1/4) :=
  (latency_variants_equivalent ⟨1, 1/2, 10, 7/10, 7/10, 1⟩
    ⟨"front", 2, 5, 0, 0, 0, 0, 5, 100⟩ ⟨"cache", 3, 5, 0, 0, 0, 0, 5, 100⟩
    ⟨"back", 4, 5, 0, 0, 0, 0, 5, 100⟩
    ⟨2, 5, 0, 0, 0, 0, 5, 100⟩ ⟨3, 5, 0, 0, 0, 0, 5, 100⟩ ⟨4, 5, 0, 0, 0, 0, 5, 100⟩
    (1/4)).2 rfl rfl rfl rfl rfl

/-- C7 counterexample: the per-server throughput `-5` is nonpositive, yet the
call returns a value (`some`) instead of raising — the division only raises at
throughput exactly `0`. -/
theorem servers_needed_nonpositive_counterexample :
    (-5 : ℚ) ≤ 0 ∧ calculate_servers_needed_checked 1000 (-5) = some (-200) := by
  refine ⟨by norm_num, ?_⟩
  have h1 : ((1000 : ℚ) / (-5)) = ((-200 : ℤ) : ℚ) := by norm_num
  rw [calculate_servers_needed_checked, if_neg (by norm_num), h1, Int.ceil_intCast]
  norm_num

/-- C7 (amended): the call raises `ZeroDivisionError` exactly when the
per-server throughput equals `0`; for every nonzero (including negative)
per-server throughput it returns `⌈t / p⌉` without raising, agreeing with the
unchecked function. -/
theorem servers_needed_raises_iff_zero (t p : ℚ) :
    (calculate_servers_needed_checked t p = none ↔ p = 0) ∧
    (p ≠ 0 → calculate_servers_needed_checked t p = some ((⌈t / p⌉ : ℤ) : ℚ)) ∧
    (p ≠ 0 → calculate_servers_needed_checked t p = some (Legacy.calculate_servers_needed t p)) := by
  unfold calculate_servers_needed_checked
  by_cases hp : p = 0
  · simp [hp]
  · simp [hp, Legacy.calculate_servers_needed]

/-- Witness for `servers_needed_raises_iff_zero` at `t = 1000`, `p = -5`. -/
theorem servers_needed_raises_iff_zero_witness :
    calculate_servers_needed_checked 1000 (-5) =
      some (Legacy.calculate_servers_needed 1000 (-5)) :=
  (servers_needed_raises_iff_zero 1000 (-5)).2.2 (by norm_num)

/-- C8: in both variants `calculate_peak_throughput` is the minimum of the
three tier aggregates, each tier aggregate (`calculate_total_throughput`) is
per-server throughput times server count, and aggregates `100, 50, 75` yield
peak `50`. -/
theorem peak_throughput_spec :
    (∀ ft ct bt : ℚ, Legacy.calculate_peak_throughput ft ct bt = min ft (min ct bt)) ∧
    (∀ ft ct bt : ℚ, Config.calculate_peak_throughput ft ct bt = min ft (min ct bt)) ∧
    (∀ (config : Legacy.ServerConfig) (n : ℚ),
      Legacy.calculate_total_throughput config n = config.throughput * n) ∧
    (∀ (config : Config.ServerConfig) (n : ℚ),
      Config.calculate_total_throughput config n = config.throughput * n) ∧
    Legacy.calculate_peak_throughput 100 50 75 = 50 ∧
    Config.calculate_peak_throughput 100 50 75 = 50 := by
  refine ⟨fun ft ct bt => rfl, fun ft ct bt => rfl, fun config n => rfl, fun config n => rfl,
    ?_, ?_⟩ <;>
    norm_num [Legacy.calculate_peak_throughput, Config.calculate_peak_throughput]

end CarbonStream

namespace CarbonStream

/-- C3: in both variants and for every tier, the replacement cost is `0` when
`simulation_years ≤ lifespan` and `⌊simulation_years / lifespan⌋ *
num_servers * per_unit_embodied_cost` otherwise, where the per-unit embodied
cost is `carbon_cost * size` in the legacy variant and the initial embodied
cost in the config variant.  Lifespans are required positive, matching every
tier of the hardware tables (with a zero lifespan Python's floor division
would raise instead). -/
theorem replacement_cost_spec (f c b : Legacy.ServerConfig) (F C B : Config.ServerConfig)
    (sys : Config.SystemConfig) (nf nc nb hit years : ℚ)
    (hf : 0 < f.lifespan_years) (hc : 0 < c.lifespan_years) (hb : 0 < b.lifespan_years)
    (hF : 0 < F.lifespan) (hC : 0 < C.lifespan) (hB : 0 < B.lifespan) :
    ((years ≤ f.lifespan_years →
        (Legacy.calculate_individual_carbon_costs f c b nf nc nb hit years).frontend_replacement
          = 0) ∧
      (f.lifespan_years < years →
        (Legacy.calculate_individual_carbon_costs f c b nf nc nb hit years).frontend_replacement
          = ((⌊years / f.lifespan_years⌋ : ℤ) : ℚ) * nf * (f.carbon_cost * f.size))) ∧
    ((years ≤ c.lifespan_years →
        (Legacy.calculate_individual_carbon_costs f c b nf nc nb hit years).cache_replacement
          = 0) ∧
      (c.lifespan_years < years →
        (Legacy.calculate_individual_carbon_costs f c b nf nc nb hit years).cache_replacement
          = ((⌊years / c.lifespan_years⌋ : ℤ) : ℚ) * nc * (c.carbon_cost * c.size))) ∧
    ((years ≤ b.lifespan_years →
        (Legacy.calculate_individual_carbon_costs f c b nf nc nb hit years).backend_replacement
          = 0) ∧
      (b.lifespan_years < years →
        (Legacy.calculate_individual_carbon_costs f c b nf nc nb hit years).backend_replacement
          = ((⌊years / b.lifespan_years⌋ : ℤ) : ℚ) * nb * (b.carbon_cost * b.size))) ∧
    ((years ≤ F.lifespan →
        (Config.calculate_individual_carbon_costs sys F C B nf nc nb hit years).frontend_replacement
          = 0) ∧
      (F.lifespan < years →
        (Config.calculate_individual_carbon_costs sys F C B nf nc nb hit years).frontend_replacement
          = ((⌊years / F.lifespan⌋ : ℤ) : ℚ) * nf * F.embodied_cost_initial)) ∧
    ((years ≤ C.lifespan →
        (Config.calculate_individual_carbon_costs sys F C B nf nc nb hit years).cache_replacement
          = 0) ∧
      (C.lifespan < years →
        (Config.calculate_individual_carbon_costs sys F C B nf nc nb hit years).cache_replacement
          = ((⌊years / C.lifespan⌋ : ℤ) : ℚ) * nc * C.embodied_cost_initial)) ∧
    ((years ≤ B.lifespan →
        (Config.calculate_individual_carbon_costs sys F C B nf nc nb hit years).backend_replacement
          = 0) ∧
      (B.lifespan < years →
        (Config.calculate_individual_carbon_costs sys F C B nf nc nb hit years).backend_replacement
          = ((⌊years / B.lifespan⌋ : ℤ) : ℚ) * nb * B.embodied_cost_initial)) := by
  simp only [Legacy.calculate_individual_carbon_costs, Config.calculate_individual_carbon_costs]
  refine ⟨?_, ?_, ?_, ?_, ?_, ?_⟩ <;>
  refine ⟨fun hy => ?_, fun hy => ?_⟩ <;>
  first
  | rw [if_neg (not_lt.mpr hy)]
  | (rw [if_pos hy]; try ring)

/-- Witness for `replacement_cost_spec`: lifespan `5` and `simulation_years
`12` yield exactly `2` replacements, matching the spec's worked example. -/
theorem replacement_cost_spec_witness :
    (Legacy.calculate_individual_carbon_costs ⟨0, 5, 1, 0, 0, 0, 5, 1⟩ ⟨0, 5, 1, 0, 0, 0, 10, 1⟩
        ⟨0, 5, 1, 0, 0, 0, 100, 1⟩ 1 1 1 0 12).frontend_replacement = 2 := by
  have h := (replacement_cost_spec ⟨0, 5, 1, 0, 0, 0, 5, 1⟩ ⟨0, 5, 1, 0, 0, 0, 10, 1⟩
    ⟨0, 5, 1, 0, 0, 0, 100, 1⟩ ⟨"front", 0, 5, 1, 0, 0, 0, 5, 1⟩ ⟨"cache", 0, 5, 1, 0, 0, 0, 10, 1⟩
    ⟨"back", 0, 5, 1, 0, 0, 0, 100, 1⟩ ⟨1, 1/2, 10, 7/10, 7/10, 1⟩ 1 1 1 0 12
    (by norm_num) (by norm_num) (by norm_num) (by norm_num) (by norm_num) (by norm_num)).1.2
    (by norm_num)
  rw [h]
  norm_num

/-- C4: in both variants `calculate_cache_hit_rate` returns
`min 1 (capacity * num_cache_servers / total_data_volume)` (with the fixed
global `NUM_VIDEOS` as the data volume in the legacy variant), lies in
`[0, 1]`, and is monotonically non-decreasing in the number of cache
servers. -/
theorem cache_hit_rate_spec (sys : Config.SystemConfig) (C : Config.ServerConfig)
    (cl : Legacy.ServerConfig) (n n2 : ℚ)
    (hcap : 0 ≤ C.capacity) (hvol : 0 < sys.storage_capacity)
    (hsize : 0 ≤ cl.size) (hn : 0 ≤ n) (hmono : n ≤ n2) :
    Config.calculate_cache_hit_rate sys C n = min 1 (C.capacity * n / sys.storage_capacity) ∧
    0 ≤ Config.calculate_cache_hit_rate sys C n ∧
    Config.calculate_cache_hit_rate sys C n ≤ 1 ∧
    Config.calculate_cache_hit_rate sys C n ≤ Config.calculate_cache_hit_rate sys C n2 ∧
    Legacy.calculate_cache_hit_rate cl n = min 1 (cl.size * n / NUM_VIDEOS) ∧
    0 ≤ Legacy.calculate_cache_hit_rate cl n ∧
    Legacy.calculate_cache_hit_rate cl n ≤ 1 ∧
    Legacy.calculate_cache_hit_rate cl n ≤ Legacy.calculate_cache_hit_rate cl n2 := by
  have hnum : (0 : ℚ) < NUM_VIDEOS := by norm_num [NUM_VIDEOS]
  simp only [Config.calculate_cache_hit_rate, Legacy.calculate_cache_hit_rate]
  refine ⟨trivial, ?_, ?_, ?_, trivial, ?_, ?_, ?_⟩
  · exact le_min (by norm_num) (div_nonneg (mul_nonneg hcap hn) hvol.le)
  · exact min_le_left _ _
  · exact min_le_min le_rfl
      ((div_le_div_iff_of_pos_right hvol).mpr (mul_le_mul_of_nonneg_left hmono hcap))
  · exact le_min (by norm_num) (div_nonneg (mul_nonneg hsize hn) hnum.le)
  · exact min_le_left _ _
  · exact min_le_min le_rfl
      ((div_le_div_iff_of_pos_right hnum).mpr (mul_le_mul_of_nonneg_left hmono hsize))

/-- Witness for `cache_hit_rate_spec`: a 4096-GB-per-server cache is
monotone going from 1 to 2 servers. -/
theorem cache_hit_rate_spec_witness :
    (0 : ℚ) ≤ 1 ∧
    Legacy.calculate_cache_hit_rate ⟨0, 20, 1, 0, 0, 0, 10, 4096⟩ 1 ≤
      Legacy.calculate_cache_hit_rate ⟨0, 20, 1, 0, 0, 0, 10, 4096⟩ 2 :=
  ⟨by norm_num,
    (cache_hit_rate_spec ⟨1, 1/2, 10, 7/10, 7/10, 1⟩ ⟨"cache", 0, 20, 0, 0, 0, 0, 10, 4096⟩
      ⟨0, 20, 1, 0, 0, 0, 10, 4096⟩ 1 2 (by norm_num) (by norm_num) (by norm_num) (by norm_num)
      (by norm_num)).2.2.2.2.2.2.2⟩

/-- C5: in both variants `calculate_average_latency` is monotonically
non-decreasing in the backend hardware service latency and monotonically
non-increasing in the cache hit rate, under the model's invariants that the
hit rate lies below `1` and the backend effective latency is non-negative. -/
theorem average_latency_monotone (sys : Config.SystemConfig)
    (F C B B2 : Config.ServerConfig) (f c b b2 : Legacy.ServerConfig) (r r2 : ℚ)
    (hB12 : B.latency ≤ B2.latency) (hb12 : b.latency ≤ b2.latency)
    (hr : r ≤ r2) (hr1 : r ≤ 1) (hr2 : r2 ≤ 1)
    (hBl : 0 ≤ B.latency + sys.latency_network + sys.latency_processing)
    (hbl : 0 ≤ b.latency + NETWORK_LATENCY + PROCESSING_LATENCY) :
    Config.calculate_average_latency sys F C B r ≤
      Config.calculate_average_latency sys F C B2 r ∧
    Config.calculate_average_latency sys F C B r2 ≤
      Config.calculate_average_latency sys F C B r ∧
    Legacy.calculate_average_latency f c b r ≤ Legacy.calculate_average_latency f c b2 r ∧
    Legacy.calculate_average_latency f c b r2 ≤ Legacy.calculate_average_latency f c b r := by
  simp only [Config.calculate_average_latency, Legacy.calculate_average_latency]
  refine ⟨?_, ?_, ?_, ?_⟩
  · have h1 : (0 : ℚ) ≤ 1 - r := by linarith
    have h2 : B.latency + sys.latency_network + sys.latency_processing ≤
        B2.latency + sys.latency_network + sys.latency_processing := by linarith
    have h3 := mul_le_mul_of_nonneg_left h2 h1
    linarith
  · have h1 : 1 - r2 ≤ 1 - r := by linarith
    have h3 := mul_le_mul_of_nonneg_right h1 hBl
    linarith
  · have h1 : (0 : ℚ) ≤ 1 - r := by linarith
    have h2 : b.latency + NETWORK_LATENCY + PROCESSING_LATENCY ≤
        b2.latency + NETWORK_LATENCY + PROCESSING_LATENCY := by linarith
    have h3 := mul_le_mul_of_nonneg_left h2 h1
    nlinarith
  · have h1 : 1 - r2 ≤ 1 - r := by linarith
    have h3 := mul_le_mul_of_nonneg_right h1 hbl
    nlinarith

/-- Witness for `average_latency_monotone` with backend latency raised from
`1` to `2` and hit rate raised from `1/4` to `1/2`. -/
theorem average_latency_monotone_witness :
    Legacy.calculate_average_latency ⟨0, 5, 0, 0, 0, 0, 5, 1⟩ ⟨0, 5, 0, 0, 0, 0, 5, 1⟩
        ⟨1, 5, 0, 0, 0, 0, 5, 1⟩ (1/2) ≤
      Legacy.calculate_average_latency ⟨0, 5, 0, 0, 0, 0, 5, 1⟩ ⟨0, 5, 0, 0, 0, 0, 5, 1⟩
        ⟨1, 5, 0, 0, 0, 0, 5, 1⟩ (1/4) :=
  (average_latency_monotone ⟨1, 1/2, 10, 7/10, 7/10, 1⟩
    ⟨"front", 0, 5, 0, 0, 0, 0, 5, 1⟩ ⟨"cache", 0, 5, 0, 0, 0, 0, 5, 1⟩
    ⟨"back", 1, 5, 0, 0, 0, 0, 5, 1⟩ ⟨"back2", 2, 5, 0, 0, 0, 0, 5, 1⟩
    ⟨0, 5, 0, 0, 0, 0, 5, 1⟩ ⟨0, 5, 0, 0, 0, 0, 5, 1⟩ ⟨1, 5, 0, 0, 0, 0, 5, 1⟩
    ⟨2, 5, 0, 0, 0, 0, 5, 1⟩ (1/4) (1/2) (by norm_num) (by norm_num) (by norm_num)
    (by norm_num) (by norm_num) (by norm_num)
    (by norm_num [NETWORK_LATENCY, PROCESSING_LATENCY])).2.2.2

/-- C6: in both variants the backend tier's active and idle costs are scaled
by `(1 - cache_hit_rate)` (shown against the unscaled costs at hit rate `0`),
while the frontend and cache tiers' active and idle costs are independent of
the cache hit rate. -/
theorem backend_hit_rate_scaling (f c b : Legacy.ServerConfig) (F C B : Config.ServerConfig)
    (sys : Config.SystemConfig) (nf nc nb hit hit2 years : ℚ) :
    (Legacy.calculate_individual_carbon_costs f c b nf nc nb hit years).frontend_active =
      (Legacy.calculate_individual_carbon_costs f c b nf nc nb hit2 years).frontend_active ∧
    (Legacy.calculate_individual_carbon_costs f c b nf nc nb hit years).cache_active =
      (Legacy.calculate_individual_carbon_costs f c b nf nc nb hit2 years).cache_active ∧
    (Legacy.calculate_individual_carbon_costs f c b nf nc nb hit years).frontend_idle =
      (Legacy.calculate_individual_carbon_costs f c b nf nc nb hit2 years).frontend_idle ∧
    (Legacy.calculate_individual_carbon_costs f c b nf nc nb hit years).cache_idle =
      (Legacy.calculate_individual_carbon_costs f c b nf nc nb hit2 years).cache_idle ∧
    (Legacy.calculate_individual_carbon_costs f c b nf nc nb hit years).backend_active =
      (1 - hit) *
        (Legacy.calculate_individual_carbon_costs f c b nf nc nb 0 years).backend_active ∧
    (Legacy.calculate_individual_carbon_costs f c b nf nc nb hit years).backend_idle =
      (1 - hit) *
        (Legacy.calculate_individual_carbon_costs f c b nf nc nb 0 years).backend_idle ∧
    (Config.calculate_individual_carbon_costs sys F C B nf nc nb hit years).frontend_active =
      (Config.calculate_individual_carbon_costs sys F C B nf nc nb hit2 years).frontend_active ∧
    (Config.calculate_individual_carbon_costs sys F C B nf nc nb hit years).cache_active =
      (Config.calculate_individual_carbon_costs sys F C B nf nc nb hit2 years).cache_active ∧
    (Config.calculate_individual_carbon_costs sys F C B nf nc nb hit years).frontend_idle =
      (Config.calculate_individual_carbon_costs sys F C B nf nc nb hit2 years).frontend_idle ∧
    (Config.calculate_individual_carbon_costs sys F C B nf nc nb hit years).cache_idle =
      (Config.calculate_individual_carbon_costs sys F C B nf nc nb hit2 years).cache_idle ∧
    (Config.calculate_individual_carbon_costs sys F C B nf nc nb hit years).backend_active =
      (1 - hit) *
        (Config.calculate_individual_carbon_costs sys F C B nf nc nb 0 years).backend_active ∧
    (Config.calculate_individual_carbon_costs sys F C B nf nc nb hit years).backend_idle =
      (1 - hit) *
        (Config.calculate_individual_carbon_costs sys F C B nf nc nb 0 years).backend_idle := by
  simp only [Legacy.calculate_individual_carbon_costs, Config.calculate_individual_carbon_costs]
  refine ⟨trivial, trivial, trivial, trivial, by ring, by ring, trivial, trivial, trivial,
    trivial, by ring, by ring⟩

end CarbonStream

namespace CarbonStream

/-- C9: the SLO latency input influences no computed output.  Two runs of
either variant's `main` pipeline that differ only in `slo_latency` produce
the same row up to the `slo_latency` column, into which the input is copied
verbatim. -/
theorem slo_latency_noninterference (L L2 T years : ℚ)
    (f c b : Legacy.ServerConfig) (sys : Config.SystemConfig) (F C B : Config.ServerConfig) :
    Legacy.main_row L T f c b years =
      { Legacy.main_row L2 T f c b years with slo_latency := L } ∧
    (Legacy.main_row L T f c b years).slo_latency = L ∧
    Config.main_row L T sys F C B years =
      { Config.main_row L2 T sys F C B years with slo_latency := L } ∧
    (Config.main_row L T sys F C B years).slo_latency = L :=
  ⟨rfl, rfl, rfl, rfl⟩

/-- A tier sized by ceiling division meets the SLO throughput: the tier
aggregate `p * ⌈t / p⌉` is at least `t` whenever `p > 0`. -/
theorem tier_aggregate_meets_slo (t p : ℚ) (hp : 0 < p) :
    t ≤ p * ((⌈t / p⌉ : ℤ) : ℚ) := by
  calc t = t / p * p := (div_mul_cancel₀ t hp.ne').symm
    _ ≤ ((⌈t / p⌉ : ℤ) : ℚ) * p := mul_le_mul_of_nonneg_right (Int.le_ceil _) hp.le
    _ = p * ((⌈t / p⌉ : ℤ) : ℚ) := mul_comm _ _

/-- C10: when the SLO throughput and every tier's per-server throughput are
positive, the peak throughput computed by either variant's `main` pipeline is
at least the SLO throughput — the throughput SLO is met by construction. -/
theorem peak_throughput_meets_slo (L T years : ℚ) (f c b : Legacy.ServerConfig)
    (sys : Config.SystemConfig) (F C B : Config.ServerConfig)
    (hT : 0 < T) (hf : 0 < f.throughput) (hc : 0 < c.throughput) (hb : 0 < b.throughput)
    (hF : 0 < F.throughput) (hC : 0 < C.throughput) (hB : 0 < B.throughput) :
    T ≤ (Legacy.main_row L T f c b years).peak_throughput ∧
    T ≤ (Config.main_row L T sys F C B years).peak_throughput := by
  constructor
  · show T ≤ Legacy.calculate_peak_throughput
      (Legacy.calculate_total_throughput f (Legacy.calculate_servers_needed T f.throughput))
      (Legacy.calculate_total_throughput c (Legacy.calculate_servers_needed T c.throughput))
      (Legacy.calculate_total_throughput b (Legacy.calculate_servers_needed T b.throughput))
    simp only [Legacy.calculate_peak_throughput, Legacy.calculate_total_throughput,
      Legacy.calculate_servers_needed, le_min_iff]
    exact ⟨tier_aggregate_meets_slo T _ hf,
      tier_aggregate_meets_slo T _ hc, tier_aggregate_meets_slo T _ hb⟩
  · show T ≤ Config.calculate_peak_throughput
      (Config.calculate_total_throughput F (Config.calculate_servers_needed T F.throughput))
      (Config.calculate_total_throughput C (Config.calculate_servers_needed T C.throughput))
      (Config.calculate_total_throughput B (Config.calculate_servers_needed T B.throughput))
    simp only [Config.calculate_peak_throughput, Config.calculate_total_throughput,
      Config.calculate_servers_needed, le_min_iff]
    exact ⟨tier_aggregate_meets_slo T _ hF,
      tier_aggregate_meets_slo T _ hC, tier_aggregate_meets_slo T _ hB⟩

/-- Witness for `peak_throughput_meets_slo` at SLO throughput `1000` with
per-server throughputs `20`, `20`, `5` (legacy) and `20`, `5`, `1/4`
(config). -/
theorem peak_throughput_meets_slo_witness :
    (1000 : ℚ) ≤ (Legacy.main_row 100 1000 ⟨0, 20, 1, 0, 0, 0, 5, 1⟩ ⟨0, 20, 1, 0, 0, 0, 10, 1⟩
        ⟨0, 5, 1, 0, 0, 0, 5, 1⟩ 10).peak_throughput ∧
    (1000 : ℚ) ≤ (Config.main_row 100 1000 ⟨1, 1/2, 10, 7/10, 7/10, 1⟩
        ⟨"front", 0, 20, 1, 0, 0, 0, 5, 1⟩ ⟨"cache", 0, 5, 1, 0, 0, 0, 10, 1⟩
        ⟨"back", 0, 1/4, 1, 0, 0, 0, 5, 1⟩ 10).peak_throughput :=
  peak_throughput_meets_slo 100 1000 10 ⟨0, 20, 1, 0, 0, 0, 5, 1⟩ ⟨0, 20, 1, 0, 0, 0, 10, 1⟩
    ⟨0, 5, 1, 0, 0, 0, 5, 1⟩ ⟨1, 1/2, 10, 7/10, 7/10, 1⟩ ⟨"front", 0, 20, 1, 0, 0, 0, 5, 1⟩
    ⟨"cache", 0, 5, 1, 0, 0, 0, 10, 1⟩ ⟨"back", 0, 1/4, 1, 0, 0, 0, 5, 1⟩
    (by norm_num) (by norm_num) (by norm_num) (by norm_num) (by norm_num) (by norm_num)
    (by norm_num)

end CarbonStream
